import Mathlib

/-!
Verification of the play-by-play reconciliation core of the `nhl_scraper`
repository.  Each definition below is a shallow embedding of one function
(or one inline computation) of the Python source; the theorems settle the
specification claims about them.

Source files embedded here:
  * `nhl_scraper/scraper/scrape.py`  (`convert_str_to_seconds`, `scrape_pbp`)
  * `nhl_scraper/scraper/utils.py`   (`convert_time_to_seconds`,
    `validate_shift_data`, `validate_event_types`, `fix_coordinates`)
  * `nhl_scraper/scraper.py`         (`NHLPlayByPlayParser.add_elapsed_time`)
-/

namespace NHLScraper

/-! ## Time codec (scrape.py lines 13-29, utils.py lines 303-332)

Clock strings are modelled as `String`; splitting on the `:` separator is
done character by character, mirroring Python's `str.split(':')`, and
`pyInt` models Python's `int()` applied to an optionally signed decimal
string (raising `ValueError`, i.e. returning `Except.error`, otherwise). -/

/-- Numeric value of a list of decimal digit characters. -/
def pyDigits (l : List Char) : Nat :=
  l.foldl (fun a c => a * 10 + (c.toNat - '0'.toNat)) 0

/-- Python `int(s)` on an optionally signed decimal string: succeeds exactly
when the string is a nonempty run of digits, optionally preceded by `-`. -/
def pyInt (l : List Char) : Except Unit Int :=
  match l with
  | '-' :: rest =>
      if rest ≠ [] ∧ rest.all Char.isDigit then Except.ok (-(pyDigits rest : Int))
      else Except.error ()
  | _ =>
      if l ≠ [] ∧ l.all Char.isDigit then Except.ok (pyDigits l : Int)
      else Except.error ()

/-- Python `s.split(':')`: the list of chunks between `:` separators. -/
def splitOnColon : List Char → List (List Char)
  | [] => [[]]
  | c :: rest =>
      if c = ':' then [] :: splitOnColon rest
      else
        match splitOnColon rest with
        | [] => [[c]]
        | h :: t => (c :: h) :: t

/-- Python `s.count(':')`, the `number_of_separators` of the source. -/
def sepCount (s : String) : Nat := s.data.count ':'

theorem splitOnColon_ne_nil (l : List Char) : splitOnColon l ≠ [] := by
  induction l with
  | nil => simp [splitOnColon]
  | cons c rest ih =>
      simp only [splitOnColon]
      split
      · simp
      · cases h : splitOnColon rest with
        | nil => simp
        | cons a t => simp

/-- Splitting on `:` always returns one more chunk than there are separators. -/
theorem length_splitOnColon (l : List Char) :
    (splitOnColon l).length = l.count ':' + 1 := by
  induction l with
  | nil => simp [splitOnColon]
  | cons c rest ih =>
      simp only [splitOnColon]
      by_cases hc : c = ':'
      · subst hc
        simp [List.count_cons, ih]
      · cases h : splitOnColon rest with
        | nil => exact absurd h (splitOnColon_ne_nil rest)
        | cons a t =>
            simp only [if_neg hc, List.length_cons]
            rw [h] at ih
            simp only [List.length_cons] at ih
            simp [List.count_cons, hc, ih]

/-- Embedding of `convert_str_to_seconds` (scrape.py lines 13-29): 0 separators parses the
whole string as an integer, 1 separator is `M:SS`, 2 separators is `H:MM:SS`,
anything else raises; a non-numeric component raises through `int()`. -/
def convert_str_to_seconds (s : String) : Except Unit Int :=
  match splitOnColon s.data with
  | [x] => pyInt x
  | [m, sec] =>
      match pyInt m, pyInt sec with
      | Except.ok m', Except.ok s' => Except.ok (m' * 60 + s')
      | _, _ => Except.error ()
  | [h, m, sec] =>
      match pyInt h, pyInt m, pyInt sec with
      | Except.ok h', Except.ok m', Except.ok s' =>
          Except.ok (h' * 3600 + m' * 60 + s')
      | _, _, _ => Except.error ()
  | _ => Except.error ()

/-- Embedding of `convert_time_to_seconds` (utils.py lines 303-332): accepts exactly the
`HH:MM:SS` and `MM:SS` shapes and raises `ValueError` for every other
separator count and for non-numeric components. -/
def convert_time_to_seconds (s : String) : Except Unit Int :=
  match splitOnColon s.data with
  | [h, m, sec] =>
      match pyInt h, pyInt m, pyInt sec with
      | Except.ok h', Except.ok m', Except.ok s' =>
          Except.ok (h' * 3600 + m' * 60 + s')
      | _, _, _ => Except.error ()
  | [m, sec] =>
      match pyInt m, pyInt sec with
      | Except.ok m', Except.ok s' => Except.ok (m' * 60 + s')
      | _, _ => Except.error ()
  | _ => Except.error ()

example : convert_str_to_seconds "90" = Except.ok 90 := by rfl
example : convert_str_to_seconds "2:05" = Except.ok 125 := by rfl
example : convert_time_to_seconds "90" = Except.error () := by rfl
example : convert_time_to_seconds "1:02:03" = Except.ok 3723 := by rfl
example : convert_str_to_seconds "a:b" = Except.error () := by rfl

/-- A colon-free string splits into the single chunk holding the
whole string. -/
theorem splitOnColon_of_not_mem {l : List Char} (h : ':' ∉ l) :
    splitOnColon l = [l] := by
  induction l with
  | nil => rfl
  | cons c rest ih =>
      have hc : c ≠ ':' := fun hcc => h (hcc ▸ List.mem_cons_self c rest)
      have hrest : ':' ∉ rest := fun hr => h (List.mem_cons_of_mem c hr)
      simp only [splitOnColon, if_neg hc, ih hrest]

/-- Claim C8 is false as stated: `convert_str_to_seconds` (scrape.py) accepts
the clock string "90", whose separator count is 0 (neither 1 nor 2), and
returns 90 instead of raising. -/
theorem convert_str_zero_sep_returns :
    sepCount "90" = 0 ∧ convert_str_to_seconds "90" = Except.ok 90 :=
  ⟨by rfl, by rfl⟩

/-- Claim C8 (amended): `convert_time_to_seconds` (utils.py) raises for every
clock string whose separator count is not 1 or 2 and for every string with a
non-numeric component; `convert_str_to_seconds` (scrape.py) raises for
separator counts of 3 or more and for non-numeric components, but a
separator-free string that `int()` accepts is returned as that integer
instead of raising. -/
theorem timeCodec_error_amended :
    (∀ s : String, sepCount s ≠ 1 → sepCount s ≠ 2 →
        convert_time_to_seconds s = Except.error ()) ∧
    (∀ s : String, (∃ p ∈ splitOnColon s.data, pyInt p = Except.error ()) →
        convert_time_to_seconds s = Except.error ()) ∧
    (∀ s : String, 2 < sepCount s → convert_str_to_seconds s = Except.error ()) ∧
    (∀ s : String, (∃ p ∈ splitOnColon s.data, pyInt p = Except.error ()) →
        convert_str_to_seconds s = Except.error ()) ∧
    (∀ (s : String) (v : Int), sepCount s = 0 → pyInt s.data = Except.ok v →
        convert_str_to_seconds s = Except.ok v) := by
  have hlen : ∀ s : String, (splitOnColon s.data).length = sepCount s + 1 := by
    intro s; exact length_splitOnColon s.data
  refine ⟨?_, ?_, ?_, ?_, ?_⟩
  · intro s h1 h2
    have hl := hlen s
    rcases hsp : splitOnColon s.data with _ | ⟨a, _ | ⟨b, _ | ⟨c, t⟩⟩⟩
    · exact absurd hsp (splitOnColon_ne_nil s.data)
    · simp [convert_time_to_seconds, hsp]
    · rw [hsp] at hl; simp at hl; omega
    · cases t with
      | nil => rw [hsp] at hl; simp at hl; omega
      | cons d t' => simp [convert_time_to_seconds, hsp]
  · intro s ⟨p, hp, herr⟩
    rcases hsp : splitOnColon s.data with _ | ⟨a, _ | ⟨b, _ | ⟨c, t⟩⟩⟩
    · exact absurd hsp (splitOnColon_ne_nil s.data)
    · simp [convert_time_to_seconds, hsp]
    · rw [hsp] at hp
      simp only [List.mem_cons, List.not_mem_nil, or_false] at hp
      rcases hp with hp | hp <;>
        cases ha : pyInt a <;> cases hb : pyInt b <;>
          simp_all [convert_time_to_seconds, hsp]
    · cases t with
      | nil =>
          rw [hsp] at hp
          simp only [List.mem_cons, List.not_mem_nil, or_false] at hp
          rcases hp with hp | hp | hp <;>
            cases ha : pyInt a <;> cases hb : pyInt b <;> cases hc : pyInt c <;>
              simp_all [convert_time_to_seconds, hsp]
      | cons d t' => simp [convert_time_to_seconds, hsp]
  · intro s h3
    have hl := hlen s
    rcases hsp : splitOnColon s.data with _ | ⟨a, _ | ⟨b, _ | ⟨c, t⟩⟩⟩
    · exact absurd hsp (splitOnColon_ne_nil s.data)
    · rw [hsp] at hl; simp at hl; omega
    · rw [hsp] at hl; simp at hl; omega
    · cases t with
      | nil => rw [hsp] at hl; simp at hl; omega
      | cons d t' => simp [convert_str_to_seconds, hsp]
  · intro s ⟨p, hp, herr⟩
    rcases hsp : splitOnColon s.data with _ | ⟨a, _ | ⟨b, _ | ⟨c, t⟩⟩⟩
    · exact absurd hsp (splitOnColon_ne_nil s.data)
    · rw [hsp] at hp
      simp only [List.mem_cons, List.not_mem_nil, or_false] at hp
      simp_all [convert_str_to_seconds, hsp]
    · rw [hsp] at hp
      simp only [List.mem_cons, List.not_mem_nil, or_false] at hp
      rcases hp with hp | hp <;>
        cases ha : pyInt a <;> cases hb : pyInt b <;>
          simp_all [convert_str_to_seconds, hsp]
    · cases t with
      | nil =>
          rw [hsp] at hp
          simp only [List.mem_cons, List.not_mem_nil, or_false] at hp
          rcases hp with hp | hp | hp <;>
            cases ha : pyInt a <;> cases hb : pyInt b <;> cases hc : pyInt c <;>
              simp_all [convert_str_to_seconds, hsp]
      | cons d t' => simp [convert_str_to_seconds, hsp]
  · intro s v h0 hok
    have hnm : ':' ∉ s.data := by
      have := List.count_eq_zero.mp h0
      exact this
    have hsp : splitOnColon s.data = [s.data] := splitOnColon_of_not_mem hnm
    simp [convert_str_to_seconds, hsp, hok]

/-- Witness for the amended claim C8 at concrete inputs. -/
theorem timeCodec_error_amended_witness :
    convert_time_to_seconds "90" = Except.error () ∧
    convert_str_to_seconds "1:2:3:4" = Except.error () :=
  ⟨timeCodec_error_amended.1 "90" (by decide) (by decide),
   timeCodec_error_amended.2.2.1 "1:2:3:4" (by decide)⟩

/-! ## Elapsed time (scrape.py lines 418-421, scraper.py lines 1348-1374) -/

/-- One play-by-play row's time fields, as used by the elapsed-time
computations. -/
structure PbpTimeRow where
  periodType : String
  period : Int
  timeInPeriod_s : Int
deriving DecidableEq

/-- The `elapsedTime` column of `scrape_pbp` (scrape.py line 421):
`(period - 1) * 20 * 60 + timeInPeriod_s`, with no special case for any
period type. -/
def scrape_pbp_elapsedTime (r : PbpTimeRow) : Int :=
  (r.period - 1) * 20 * 60 + r.timeInPeriod_s

/-- The `elapsedTime` column of `NHLPlayByPlayParser.add_elapsed_time`
(scraper.py lines 1365-1373): 3900 when `periodDescriptor.periodType` is
"SO", otherwise `timeInPeriod_s + (period - 1) * 60 * 20`. -/
def add_elapsed_time (periodType : String) (periodNumber : Int)
    (timeInPeriod_s : Int) : Int :=
  if periodType = "SO" then 3900
  else timeInPeriod_s + (periodNumber - 1) * 60 * 20

/-- Claim C7 is false as stated: `scrape_pbp` computes the elapsed time of a
shootout event (period 5, clock 0:00) as 4800, not the sentinel 3900. -/
theorem scrape_pbp_shootout_not_sentinel :
    scrape_pbp_elapsedTime ⟨"SO", 5, 0⟩ = 4800 ∧ (4800 : Int) ≠ 3900 := by
  constructor
  · rfl
  · decide

/-- Claim C7 (amended): `add_elapsed_time` (scraper.py) maps regular and
overtime events to clock seconds plus `(period - 1) * 1200` and shootout
events to the sentinel 3900, while the `elapsedTime` of `scrape_pbp`
(scrape.py) applies the `(period - 1) * 1200` formula to every event,
shootout included. -/
theorem elapsed_time_amended :
    (∀ (pt : String) (p t : Int), pt = "REG" ∨ pt = "OT" →
        add_elapsed_time pt p t = t + (p - 1) * 1200) ∧
    (∀ p t : Int, add_elapsed_time "SO" p t = 3900) ∧
    (∀ r : PbpTimeRow,
        scrape_pbp_elapsedTime r = (r.period - 1) * 1200 + r.timeInPeriod_s) := by
  refine ⟨?_, ?_, ?_⟩
  · intro pt p t hpt
    rcases hpt with h | h <;> subst h <;> simp [add_elapsed_time] <;> ring
  · intro p t; simp [add_elapsed_time]
  · intro r; simp [scrape_pbp_elapsedTime]; ring

/-- Witness for the amended claim C7 at concrete inputs. -/
theorem elapsed_time_amended_witness :
    add_elapsed_time "OT" 4 30 = 30 + (4 - 1) * 1200 :=
  elapsed_time_amended.1 "OT" 4 30 (Or.inr rfl)

/-! ## Carried-forward fill (scrape.py lines 363-364, game.py lines 314-316)

`pbp_df[col] = pbp_df[col].ffill().fillna(0)` applied to the running score
and shots-on-goal columns: every null takes the most recent non-null value
above it, and nulls before the first value become 0. -/

/-- The `ffill().fillna(0)` transform with the running "last seen" value as accumulator
(0 until the first non-null entry). -/
def ffillAux : List (Option Int) → Int → List Int
  | [], _ => []
  | o :: l, last => (o.getD last) :: ffillAux l (o.getD last)

/-- The `ffill().fillna(0)` column transform of scrape.py line 364. -/
def ffill_fillna0 (l : List (Option Int)) : List Int := ffillAux l 0

/-- Written from the spec's words, for comparison with `ffill_fillna0`: the
value at each row is the most recent preceding non-null raw value (the row
itself included), and 0 when no preceding non-null value exists. -/
def specForwardFill (l : List (Option Int)) : List Int :=
  (List.range l.length).map (fun i => (l.take (i + 1)).foldl (fun a o => o.getD a) 0)

theorem ffillAux_eq_spec (l : List (Option Int)) (acc : Int) :
    ffillAux l acc =
      (List.range l.length).map
        (fun i => (l.take (i + 1)).foldl (fun a o => o.getD a) acc) := by
  induction l generalizing acc with
  | nil => rfl
  | cons o l ih =>
      simp only [ffillAux, List.length_cons, List.range_succ_eq_map,
        List.map_cons, List.map_map]
      congr 1
      rw [ih (o.getD acc)]
      apply List.map_congr_left
      intro i _
      simp [List.take_succ_cons]

/-- Claim C5: the reconciled running score value at each row equals the most
recent preceding non-null raw value (0 when none exists), and the raw score
sequence [null, 1-0, null, null, 2-0] reconciles to
[0-0, 1-0, 1-0, 1-0, 2-0] (home and away columns filled separately). -/
theorem running_score_forward_fill :
    (∀ l : List (Option Int), ffill_fillna0 l = specForwardFill l) ∧
    ffill_fillna0 [none, some 1, none, none, some 2] = [0, 1, 1, 1, 2] ∧
    ffill_fillna0 [none, some 0, none, none, some 0] = [0, 0, 0, 0, 0] := by
  refine ⟨?_, by rfl, by rfl⟩
  intro l
  exact ffillAux_eq_spec l 0

/-! ## Coordinate normalizer (utils.py lines 466-492, scrape.py lines 432-444)

`fix_coordinates` flips the sign of both coordinates exactly when
`(eventTeamType == "home" and homeTeamDefendingSide == "right") or
(eventTeamType == "away" and homeTeamDefendingSide == "right")`; a null
coordinate stays null (`0 - NaN` is `NaN`). -/

/-- The `xFixed`/`yFixed` computation, one row at a time.  Coordinates are
nullable, and `0 - x` on a null is null. -/
def fix_coordinates (eventTeamType : String) (homeTeamDefendingSide : String)
    (xCoord yCoord : Option Int) : Option Int × Option Int :=
  if (eventTeamType = "home" ∧ homeTeamDefendingSide = "right")
      ∨ (eventTeamType = "away" ∧ homeTeamDefendingSide = "right") then
    (xCoord.map (fun v => 0 - v), yCoord.map (fun v => 0 - v))
  else
    (xCoord, yCoord)

/-- Claim C6: for both eventing sides the normalized coordinate is the raw
one with both signs flipped exactly when the home team defends "right", and
the raw coordinate unchanged otherwise; nulls pass through, and in
particular home eventing with defending side "right" maps (25, 10) to
(-25, -10) while any other defending side leaves it unchanged. -/
theorem fix_coordinates_flip :
    (∀ (ds : String) (x y : Option Int),
        fix_coordinates "home" ds x y =
          if ds = "right" then (x.map (fun v => 0 - v), y.map (fun v => 0 - v))
          else (x, y)) ∧
    (∀ (ds : String) (x y : Option Int),
        fix_coordinates "away" ds x y =
          if ds = "right" then (x.map (fun v => 0 - v), y.map (fun v => 0 - v))
          else (x, y)) ∧
    fix_coordinates "home" "right" (some 25) (some 10) = (some (-25), some (-10)) ∧
    fix_coordinates "home" "left" (some 25) (some 10) = (some 25, some 10) ∧
    fix_coordinates "away" "right" none none = (none, none) := by
  refine ⟨?_, ?_, by rfl, by rfl, by rfl⟩ <;>
    · intro ds x y
      by_cases h : ds = "right" <;> simp [fix_coordinates, h]

/-! ## Shift data validation (utils.py lines 126-154)

`validate_shift_data` receives the shift DataFrame and raises `ValueError`
when required columns are missing or when the frame is empty; it inspects
nothing else about the rows. -/

/-- One parsed shift interval row (the fields relevant to the claims). -/
structure ShiftReportRow where
  playerId : Int
  teamId : Int
  period : Int
  startSeconds : Int
  endSeconds : Int
deriving DecidableEq

/-- A shift DataFrame: its column-name list and its rows. -/
structure ShiftDataFrame where
  columns : List String
  rows : List ShiftReportRow
deriving DecidableEq

/-- The `required_columns` list of utils.py lines 139-147. -/
def shift_required_columns : List String :=
  ["playerId", "teamId", "period", "startTime", "endTime", "duration",
   "shiftDuration"]

/-- Embedding of `validate_shift_data` (utils.py lines 126-154): error when a required
column is missing, error when the frame is empty, otherwise return. -/
def validate_shift_data (df : ShiftDataFrame) : Except String Unit :=
  let missing := shift_required_columns.filter (fun c => !(df.columns.contains c))
  if missing ≠ [] then Except.error "Missing required columns"
  else if df.rows = [] then Except.error "No shift data found"
  else Except.ok ()

/-- A shift record set with every required column, containing one interval
with `endSeconds <= startSeconds` (100 down to 50). -/
def invertedShiftDf : ShiftDataFrame :=
  { columns := shift_required_columns
    rows := [⟨8479318, 10, 1, 100, 50⟩] }

/-- Claim C9 is false as stated: a record set containing an interval with
`endSeconds <= startSeconds` passes `validate_shift_data` without any
error being raised. -/
theorem validate_shift_data_accepts_inverted :
    (∃ r ∈ invertedShiftDf.rows, r.endSeconds ≤ r.startSeconds) ∧
    validate_shift_data invertedShiftDf = Except.ok () := by
  constructor
  · exact ⟨⟨8479318, 10, 1, 100, 50⟩, by simp [invertedShiftDf], by decide⟩
  · rfl

/-- Claim C9 (amended): `validate_shift_data` raises exactly when a required
column is absent or the record set is empty; inverted intervals
(`endSeconds <= startSeconds`) and overlapping intervals of one player are
not checked and do not raise. -/
theorem validate_shift_data_amended :
    ∀ df : ShiftDataFrame,
      validate_shift_data df = Except.ok () ↔
        ((∀ c ∈ shift_required_columns, c ∈ df.columns) ∧ df.rows ≠ []) := by
  intro df
  simp only [validate_shift_data]
  by_cases hmiss :
      shift_required_columns.filter (fun c => !(df.columns.contains c)) = [] <;>
    by_cases hrows : df.rows = [] <;>
      simp_all [List.filter_eq_nil_iff]

/-! ## Shift interval index (scrape.py lines 583-622)

`scrape_pbp` filters the shift DataFrame into skater/goalie frames per side
and, for each event second, collects the `playerId`s of the rows with
`startTime_s <= second < endTime_s` via pandas `.unique()`, which keeps the
first occurrence of each id in row order. -/

/-- One row of the joined shifts DataFrame (the columns the on-ice queries
read): `position` is "F"/"D"/"G", `is_home` is 1 (home) or 0 (away). -/
structure ShiftRow where
  playerId : Int
  position : String
  is_home : Nat
  startTime_s : Int
  endTime_s : Int
deriving DecidableEq

/-- pandas `.unique()`: the distinct values in order of first appearance,
accumulating the already-seen values. -/
def pdUniqueAux (seen : List Int) : List Int → List Int
  | [] => []
  | a :: l =>
      if a ∈ seen then pdUniqueAux seen l
      else a :: pdUniqueAux (a :: seen) l

/-- pandas `.unique()`: the distinct values in order of first appearance. -/
def pdUnique (l : List Int) : List Int := pdUniqueAux [] l

theorem mem_pdUniqueAux :
    ∀ (l seen : List Int) (x : Int),
      x ∈ pdUniqueAux seen l ↔ x ∈ l ∧ x ∉ seen := by
  intro l
  induction l with
  | nil => intro seen x; simp [pdUniqueAux]
  | cons a l ih =>
      intro seen x
      simp only [pdUniqueAux]
      by_cases ha : a ∈ seen
      · rw [if_pos ha, ih]
        simp only [List.mem_cons]
        constructor
        · rintro ⟨hx, hs⟩; exact ⟨Or.inr hx, hs⟩
        · rintro ⟨hx | hx, hs⟩
          · exact absurd (hx ▸ ha) hs
          · exact ⟨hx, hs⟩
      · rw [if_neg ha]
        simp only [List.mem_cons, ih, List.mem_cons]
        by_cases hx : x = a
        · simp [hx, ha]
        · simp [hx]

theorem mem_pdUnique {x : Int} {l : List Int} : x ∈ pdUnique l ↔ x ∈ l := by
  rw [pdUnique, mem_pdUniqueAux]
  simp

theorem nodup_pdUniqueAux : ∀ l seen : List Int, (pdUniqueAux seen l).Nodup := by
  intro l
  induction l with
  | nil => intro seen; simp [pdUniqueAux]
  | cons a l ih =>
      intro seen
      simp only [pdUniqueAux]
      by_cases ha : a ∈ seen
      · rw [if_pos ha]; exact ih seen
      · rw [if_neg ha]
        refine List.Nodup.cons ?_ (ih (a :: seen))
        intro hmem
        have := (mem_pdUniqueAux l (a :: seen) a).mp hmem
        simp at this

theorem nodup_pdUnique (l : List Int) : (pdUnique l).Nodup :=
  nodup_pdUniqueAux l []

theorem pdUniqueAux_sublist : ∀ l seen : List Int, (pdUniqueAux seen l).Sublist l := by
  intro l
  induction l with
  | nil => intro seen; simp [pdUniqueAux]
  | cons a l ih =>
      intro seen
      simp only [pdUniqueAux]
      by_cases ha : a ∈ seen
      · rw [if_pos ha]
        exact (ih seen).trans (List.sublist_cons_self a l)
      · rw [if_neg ha]
        exact List.Sublist.cons₂ a (ih (a :: seen))

theorem pdUnique_sublist (l : List Int) : (pdUnique l).Sublist l :=
  pdUniqueAux_sublist l []

/-- The frame `shifts_df.query("position != 'G' and is_home == side")`
(scrape.py lines 583-584). -/
def skaters_df (shifts : List ShiftRow) (side : Nat) : List ShiftRow :=
  shifts.filter (fun r => (r.position != "G") && (r.is_home == side))

/-- The frame `shifts_df.query("position == 'G' and is_home == side")`
(scrape.py lines 585-586). -/
def goalies_df (shifts : List ShiftRow) (side : Nat) : List ShiftRow :=
  shifts.filter (fun r => (r.position == "G") && (r.is_home == side))

/-- The ids `df.loc[(df.startTime_s <= second) & (df.endTime_s > second),
'playerId'].unique()` (scrape.py lines 592-612). -/
def onIceAt (df : List ShiftRow) (second : Int) : List Int :=
  pdUnique
    ((df.filter
        (fun r => decide (r.startTime_s ≤ second) && decide (second < r.endTime_s))).map
      (fun r => r.playerId))

/-- The per-event skater id list of one side (scrape.py lines 592-600). -/
def onIceSkaters (shifts : List ShiftRow) (side : Nat) (second : Int) : List Int :=
  onIceAt (skaters_df shifts side) second

/-- The per-event goalie id of one side (scrape.py lines 602-612):
`ids[0] if len(ids) == 1 else np.nan` over the unique matching ids. -/
def onIceGoalie (shifts : List ShiftRow) (side : Nat) (second : Int) : Option Int :=
  match onIceAt (goalies_df shifts side) second with
  | [g] => some g
  | _ => none

/-- Two home-skater shifts listed with the larger playerId first. -/
def outOfOrderShifts : List ShiftRow :=
  [⟨20, "F", 1, 0, 60⟩, ⟨10, "F", 1, 0, 60⟩]

/-- Claim C3 is false as stated: with two matching home-skater intervals
recorded for players 20 and 10 in that row order, `onIceSkaters` returns
[20, 10] — input row order, not ascending playerId order. -/
theorem onIceSkaters_not_sorted :
    onIceSkaters outOfOrderShifts 1 5 = [20, 10] ∧
    ¬ List.Sorted (· ≤ ·) (onIceSkaters outOfOrderShifts 1 5) := by
  have h : onIceSkaters outOfOrderShifts 1 5 = [20, 10] := by rfl
  refine ⟨h, ?_⟩
  rw [h]
  intro hs
  have h20 := List.rel_of_sorted_cons hs 10 (by simp)
  omega

/-- Claim C3 (amended): `onIceSkaters` returns exactly the distinct
playerIds of the skater (non-goalie) intervals of the requested side with
`startSeconds <= second < endSeconds`, without repetition, in order of
first appearance in the shift record set rather than ascending playerId. -/
theorem onIceSkaters_amended :
    ∀ (shifts : List ShiftRow) (side : Nat) (second : Int),
      (∀ x : Int,
        x ∈ onIceSkaters shifts side second ↔
          ∃ r ∈ shifts, r.position ≠ "G" ∧ r.is_home = side ∧
            r.startTime_s ≤ second ∧ second < r.endTime_s ∧ r.playerId = x) ∧
      (onIceSkaters shifts side second).Nodup ∧
      (onIceSkaters shifts side second).Sublist
        (((skaters_df shifts side).filter
            (fun r =>
              decide (r.startTime_s ≤ second) && decide (second < r.endTime_s))).map
          (fun r => r.playerId)) := by
  intro shifts side second
  refine ⟨?_, nodup_pdUnique _, pdUnique_sublist _⟩
  intro x
  simp only [onIceSkaters, onIceAt, skaters_df, mem_pdUnique, List.mem_map,
    List.mem_filter, Bool.and_eq_true, bne_iff_ne, ne_eq, beq_iff_eq,
    decide_eq_true_eq]
  constructor
  · rintro ⟨r, ⟨⟨hr, hpos, hside⟩, hs, he⟩, hid⟩
    exact ⟨r, hr, hpos, hside, hs, he, hid⟩
  · rintro ⟨r, hr, hpos, hside, hs, he, hid⟩
    exact ⟨r, ⟨⟨hr, hpos, hside⟩, hs, he⟩, hid⟩

/-- Two recorded home-goalie intervals of the same goalie (player 30), both
covering second 5. -/
def duplicateGoalieShifts : List ShiftRow :=
  [⟨30, "G", 1, 0, 600⟩, ⟨30, "G", 1, 0, 1200⟩]

/-- Claim C4 is false as stated: at second 5 two home-goalie intervals
match, yet `onIceGoalie` returns player 30 (the shared id) rather than
null, and hence the derived home goalie column for that second is 30, not
null. -/
theorem onIceGoalie_duplicate_not_null :
    ((goalies_df duplicateGoalieShifts 1).filter
        (fun r =>
          decide (r.startTime_s ≤ (5 : Int)) &&
            decide ((5 : Int) < r.endTime_s))).length = 2 ∧
    onIceGoalie duplicateGoalieShifts 1 5 = some 30 := by
  exact ⟨by rfl, by rfl⟩

/-! ## Feed goalie override (scrape.py lines 658-667)

Two sequential conditional column writes: when `goalieInNetId` is non-null
and both derived goalie columns are null, the eventing-home rows write
`goalieInNetId` into `away_goalie_id` (line 661) and then the eventing-away
rows write it into `home_goalie_id` (line 662). -/

/-- The goalie-related cells of one merged event row. -/
structure PbpGoalieRow where
  goalieInNetId : Option Int
  home_goalie_id : Option Int
  away_goalie_id : Option Int
  is_home : Nat
deriving DecidableEq

/-- scrape.py line 661: fill `away_goalie_id` from the feed for
eventing-home rows with both derived goalie columns null. -/
def overrideAwayGoalie (r : PbpGoalieRow) : PbpGoalieRow :=
  if r.goalieInNetId ≠ none ∧ r.home_goalie_id = none ∧
      r.away_goalie_id = none ∧ r.is_home = 1 then
    { r with away_goalie_id := r.goalieInNetId }
  else r

/-- scrape.py line 662: fill `home_goalie_id` from the feed for
eventing-away rows with both derived goalie columns null (evaluated after
line 661's write). -/
def overrideHomeGoalie (r : PbpGoalieRow) : PbpGoalieRow :=
  if r.goalieInNetId ≠ none ∧ r.home_goalie_id = none ∧
      r.away_goalie_id = none ∧ r.is_home = 0 then
    { r with home_goalie_id := r.goalieInNetId }
  else r

/-- The two writes of scrape.py lines 661-662, in program order. -/
def applyGoalieOverride (r : PbpGoalieRow) : PbpGoalieRow :=
  overrideHomeGoalie (overrideAwayGoalie r)

/-- Claim C4 (amended): `onIceGoalie` returns null when the matching
intervals of the side carry more than one distinct goalie playerId (while
several intervals of one goalie return that goalie), and a null derived
goalie column stays null in the output row unless the feed's
`goalieInNetId` override fires for that column (feed goalie present, both
derived columns null, eventing team on the opposite side). -/
theorem onIceGoalie_amended :
    (∀ (shifts : List ShiftRow) (side : Nat) (second : Int) (r1 r2 : ShiftRow),
        r1 ∈ goalies_df shifts side → r2 ∈ goalies_df shifts side →
        r1.startTime_s ≤ second → second < r1.endTime_s →
        r2.startTime_s ≤ second → second < r2.endTime_s →
        r1.playerId ≠ r2.playerId →
        onIceGoalie shifts side second = none) ∧
    (∀ st : PbpGoalieRow, st.home_goalie_id = none →
        ¬(st.is_home = 0 ∧ st.goalieInNetId ≠ none ∧ st.away_goalie_id = none) →
        (applyGoalieOverride st).home_goalie_id = none) ∧
    (∀ st : PbpGoalieRow, st.away_goalie_id = none →
        ¬(st.is_home = 1 ∧ st.goalieInNetId ≠ none ∧ st.home_goalie_id = none) →
        (applyGoalieOverride st).away_goalie_id = none) := by
  refine ⟨?_, ?_, ?_⟩
  · intro shifts side second r1 r2 h1 h2 h1s h1e h2s h2e hne
    have hm1 : r1.playerId ∈ onIceAt (goalies_df shifts side) second := by
      simp only [onIceAt, mem_pdUnique, List.mem_map, List.mem_filter,
        Bool.and_eq_true, decide_eq_true_eq]
      exact ⟨r1, ⟨h1, h1s, h1e⟩, rfl⟩
    have hm2 : r2.playerId ∈ onIceAt (goalies_df shifts side) second := by
      simp only [onIceAt, mem_pdUnique, List.mem_map, List.mem_filter,
        Bool.and_eq_true, decide_eq_true_eq]
      exact ⟨r2, ⟨h2, h2s, h2e⟩, rfl⟩
    rcases hids : onIceAt (goalies_df shifts side) second with _ | ⟨g, _ | ⟨g2, t⟩⟩
    · simp [onIceGoalie, hids]
    · rw [hids] at hm1 hm2
      simp only [List.mem_singleton] at hm1 hm2
      exact absurd (hm1.trans hm2.symm) hne
    · simp [onIceGoalie, hids]
  · intro st hh hnot
    unfold applyGoalieOverride overrideHomeGoalie overrideAwayGoalie
    split_ifs <;> simp_all
  · intro st ha hnot
    unfold applyGoalieOverride overrideHomeGoalie overrideAwayGoalie
    split_ifs <;> simp_all

/-- Two home-goalie intervals of distinct goalies (30 and 31) covering
second 5. -/
def distinctGoalieShifts : List ShiftRow :=
  [⟨30, "G", 1, 0, 600⟩, ⟨31, "G", 1, 0, 600⟩]

/-- Witness for the amended claim C4 at concrete inputs. -/
theorem onIceGoalie_amended_witness :
    onIceGoalie distinctGoalieShifts 1 5 = none ∧
    (applyGoalieOverride ⟨some 35, none, none, 1⟩).home_goalie_id = none :=
  ⟨onIceGoalie_amended.1 distinctGoalieShifts 1 5
      ⟨30, "G", 1, 0, 600⟩ ⟨31, "G", 1, 0, 600⟩
      (by simp [goalies_df, distinctGoalieShifts])
      (by simp [goalies_df, distinctGoalieShifts])
      (by decide) (by decide) (by decide) (by decide) (by decide),
   onIceGoalie_amended.2.1 ⟨some 35, none, none, 1⟩ rfl (by simp)⟩

/-- Claim C10: when the feed names a goalie in net and both derived goalie
columns are null, the override writes `goalieInNetId` into the goalie
column of the side opposite the eventing team, and the eventing side's own
goalie column stays null. -/
theorem goalie_override_opposite_side :
    ∀ (st : PbpGoalieRow) (g : Int),
      st.goalieInNetId = some g → st.home_goalie_id = none →
      st.away_goalie_id = none →
      (st.is_home = 1 →
        (applyGoalieOverride st).away_goalie_id = some g ∧
        (applyGoalieOverride st).home_goalie_id = none) ∧
      (st.is_home = 0 →
        (applyGoalieOverride st).home_goalie_id = some g ∧
        (applyGoalieOverride st).away_goalie_id = none) := by
  intro st g hg hh ha
  constructor
  · intro hside
    unfold applyGoalieOverride overrideHomeGoalie overrideAwayGoalie
    simp [hg, hh, ha, hside]
  · intro hside
    unfold applyGoalieOverride overrideHomeGoalie overrideAwayGoalie
    simp [hg, hh, ha, hside]

/-- Witness for claim C10 at a concrete row. -/
theorem goalie_override_opposite_side_witness :
    ((applyGoalieOverride ⟨some 35, none, none, 1⟩).away_goalie_id = some 35 ∧
      (applyGoalieOverride ⟨some 35, none, none, 1⟩).home_goalie_id = none) ∧
    ((applyGoalieOverride ⟨some 35, none, none, 0⟩).home_goalie_id = some 35 ∧
      (applyGoalieOverride ⟨some 35, none, none, 0⟩).away_goalie_id = none) :=
  ⟨(goalie_override_opposite_side ⟨some 35, none, none, 1⟩ 35 rfl rfl rfl).1 rfl,
   (goalie_override_opposite_side ⟨some 35, none, none, 0⟩ 35 rfl rfl rfl).2 rfl⟩

/-! ## Event vocabulary check and timeline merger (scrape.py lines 290-301
and 670-734)

`scrape_pbp` first validates the feed's event-type vocabulary (raising
before any merging when an unknown type appears), then concatenates the
event rows with the melted line-change rows and sorts the result by
`(elapsedTime, priority)`, where `priority` comes from the `event_priority`
dict and an unmapped event becomes NaN, which pandas orders last among
equal elapsed times. -/

/-- One feed event row, reduced to the fields the vocabulary check and the
merge read. -/
structure FeedEvent where
  typeDescKey : String
  elapsedTime : Int
deriving DecidableEq

/-- One merged timeline row. -/
structure MergedRow where
  event : String
  elapsedTime : Int
deriving DecidableEq

/-- The `expected_events` list of scrape.py lines 291-294. -/
def expected_events : List String :=
  ["period-start", "faceoff", "hit", "blocked-shot", "shot-on-goal",
   "stoppage", "giveaway", "delayed-penalty", "penalty",
   "failed-shot-attempt", "missed-shot", "goal", "takeaway", "period-end",
   "shootout-complete", "game-end"]

/-- scrape.py lines 296-301: `missing_events = set(actual) - set(expected)`,
raising when nonempty. -/
def validateEventTypes (events : List FeedEvent) : Except String Unit :=
  let missing_events :=
    (events.map (fun e => e.typeDescKey)).filter
      (fun t => !(expected_events.contains t))
  if missing_events = [] then Except.ok ()
  else Except.error "The following events are not in the dataset"

/-- The `event_priority` dict of scrape.py lines 714-731. -/
def event_priority : List (String × Nat) :=
  [("goal", 1), ("penalty", 2), ("delayed-penalty", 3), ("shot-on-goal", 4),
   ("missed-shot", 5), ("failed-shot-attempt", 5), ("blocked-shot", 7),
   ("hit", 8), ("takeaway", 9), ("giveaway", 10), ("stoppage", 11),
   ("line-change", 12), ("period-start", 13), ("period-end", 14),
   ("game-end", 15), ("faceoff", 16)]

/-- The column `pbp_df['event'].map(event_priority)`: the priority of one event type,
none (NaN) when the dict has no entry. -/
def priorityOf (e : String) : Option Nat := List.lookup e event_priority

/-- The sort key used for the priority column: pandas places NaN last
within a group of equal elapsed times, so an unmapped event type sorts
after every mapped priority (all of which are at most 16). -/
def priorityKey (r : MergedRow) : Nat := (priorityOf r.event).getD 17

/-- The `sort_values(by=['elapsedTime', 'priority'])` order
(scrape.py line 734). -/
def rowle (a b : MergedRow) : Prop :=
  a.elapsedTime < b.elapsedTime ∨
    (a.elapsedTime = b.elapsedTime ∧ priorityKey a ≤ priorityKey b)

instance : DecidableRel rowle := fun a b => by
  unfold rowle
  infer_instance

instance : IsTotal MergedRow rowle := by
  constructor
  intro a b
  unfold rowle
  rcases lt_trichotomy a.elapsedTime b.elapsedTime with h | h | h
  · exact Or.inl (Or.inl h)
  · rcases Nat.le_total (priorityKey a) (priorityKey b) with hk | hk
    · exact Or.inl (Or.inr ⟨h, hk⟩)
    · exact Or.inr (Or.inr ⟨h.symm, hk⟩)
  · exact Or.inr (Or.inl h)

instance : IsTrans MergedRow rowle := by
  constructor
  intro a b c hab hbc
  unfold rowle at *
  rcases hab with h1 | ⟨e1, k1⟩ <;> rcases hbc with h2 | ⟨e2, k2⟩
  · exact Or.inl (h1.trans h2)
  · exact Or.inl (e2 ▸ h1)
  · exact Or.inl (e1 ▸ h2)
  · exact Or.inr ⟨e1.trans e2, k1.trans k2⟩

/-- The melt of the shift rows into synthetic `line-change` rows
(scrape.py lines 671-709): one row at `startTime_s` and one at
`endTime_s` per shift. -/
def lineChangeRows (shifts : List ShiftRow) : List MergedRow :=
  shifts.map (fun r => ⟨"line-change", r.startTime_s⟩) ++
    shifts.map (fun r => ⟨"line-change", r.endTime_s⟩)

/-- scrape.py lines 709-734: concatenate the event rows with the
line-change rows and sort by `(elapsedTime, priority)`. -/
def mergedTimeline (events : List FeedEvent) (shifts : List ShiftRow) :
    List MergedRow :=
  List.insertionSort rowle
    (events.map (fun e => ⟨e.typeDescKey, e.elapsedTime⟩) ++
      lineChangeRows shifts)

/-- The reconciliation pipeline of `scrape_pbp` reduced to the vocabulary
check followed by the merge-and-sort: the check raises (lines 290-301)
before any merged output is built. -/
def scrape_pbp_model (events : List FeedEvent) (shifts : List ShiftRow) :
    Except String (List MergedRow) :=
  (validateEventTypes events).bind
    (fun _ => Except.ok (mergedTimeline events shifts))

/-- Claim C1: in every merged timeline produced by the reconciliation,
adjacent rows have non-decreasing `elapsedTime`, and rows with equal
`elapsedTime` have non-decreasing `event_priority` values under the fixed
goal(1) < ... < faceoff(16) table. -/
theorem merged_timeline_ordered :
    ∀ (events : List FeedEvent) (shifts : List ShiftRow) (out : List MergedRow),
      scrape_pbp_model events shifts = Except.ok out →
      List.Chain'
        (fun a b =>
          a.elapsedTime ≤ b.elapsedTime ∧
            (a.elapsedTime = b.elapsedTime →
              ∀ p q : Nat, priorityOf a.event = some p →
                priorityOf b.event = some q → p ≤ q)) out := by
  intro events shifts out hok
  have hout : out = mergedTimeline events shifts := by
    unfold scrape_pbp_model at hok
    cases hval : validateEventTypes events with
    | ok u => rw [hval] at hok; simp [Except.bind] at hok; exact hok.symm
    | error e => rw [hval] at hok; simp [Except.bind] at hok
  subst hout
  have hsorted : List.Sorted rowle (mergedTimeline events shifts) :=
    List.sorted_insertionSort rowle _
  have hchain : List.Chain' rowle (mergedTimeline events shifts) :=
    List.Pairwise.chain' hsorted
  refine hchain.imp ?_
  intro a b hab
  rcases hab with h | ⟨he, hk⟩
  · refine ⟨le_of_lt h, fun heq => ?_⟩
    omega
  · refine ⟨le_of_eq he, fun _ p q hp hq => ?_⟩
    have hpa : priorityKey a = p := by simp [priorityKey, hp]
    have hpb : priorityKey b = q := by simp [priorityKey, hq]
    omega

/-- A three-event feed whose two events at second 30 arrive in
anti-priority order. -/
def exEvents : List FeedEvent :=
  [⟨"faceoff", 0⟩, ⟨"period-end", 30⟩, ⟨"goal", 30⟩]

/-- Witness for claim C1 at a concrete game: the goal sorts before the
period-end at the shared second 30. -/
theorem merged_timeline_ordered_witness :
    List.Chain'
      (fun a b =>
        a.elapsedTime ≤ b.elapsedTime ∧
          (a.elapsedTime = b.elapsedTime →
            ∀ p q : Nat, priorityOf a.event = some p →
              priorityOf b.event = some q → p ≤ q))
      ([⟨"faceoff", 0⟩, ⟨"goal", 30⟩, ⟨"period-end", 30⟩] : List MergedRow) :=
  merged_timeline_ordered exEvents []
    [⟨"faceoff", 0⟩, ⟨"goal", 30⟩, ⟨"period-end", 30⟩] (by rfl)

/-- Claim C2: whenever the feed holds an event whose type is outside the
closed 16-type vocabulary, the reconciliation raises instead of merging:
no merged output is produced for that game. -/
theorem unknown_event_type_raises :
    ∀ (events : List FeedEvent) (shifts : List ShiftRow),
      (∃ e ∈ events, e.typeDescKey ∉ expected_events) →
      ∃ msg, scrape_pbp_model events shifts = Except.error msg := by
  intro events shifts ⟨e, he, hnot⟩
  refine ⟨"The following events are not in the dataset", ?_⟩
  have hval : validateEventTypes events =
      Except.error "The following events are not in the dataset" := by
    unfold validateEventTypes
    rw [if_neg]
    intro hnil
    have hmem : e.typeDescKey ∈
        (events.map (fun e => e.typeDescKey)).filter
          (fun t => !(expected_events.contains t)) := by
      rw [List.mem_filter]
      refine ⟨List.mem_map_of_mem _ he, ?_⟩
      simp [List.contains, List.elem_eq_mem, hnot]
    rw [hnil] at hmem
    simp at hmem
  simp [scrape_pbp_model, hval, Except.bind]

/-- A feed holding one event of the unknown type "unknown-event-xyz". -/
def badEvents : List FeedEvent := [⟨"unknown-event-xyz", 0⟩]

/-- Witness for claim C2 at a concrete feed. -/
theorem unknown_event_type_raises_witness :
    ∃ msg, scrape_pbp_model badEvents [] = Except.error msg :=
  unknown_event_type_raises badEvents []
    ⟨⟨"unknown-event-xyz", 0⟩, by simp [badEvents], by decide⟩

end NHLScraper
